import Mathlib

/-!
Verification of the huelab core color engine (packages/core): OKLCH ramp
generation, per-stop overrides, contrast checking, hue arithmetic and token
resolution.

JavaScript numbers are modelled as rationals (ℚ).  The culori color-science
primitives that the core wraps (css parsing to OKLCH, `clampChroma` in oklch
mode, `formatHex`, the rgb converter, `wcagContrast`) and the apca-w3
primitives (`sRGBtoY`, `APCAcontrast`) are third-party library calls; they are
modelled as the fields of an abstract `ColorKernel`, and theorems that depend
on their behavior take explicit hypotheses stating the facts used (for
example: culori's `clampChroma` reduces chroma while leaving lightness and hue
unchanged for in-range lightness).  Everything written in the repository
itself (oklch.ts, ramp.ts, overrides.ts, contrast.ts, resolver.ts) is
translated definition by definition.
-/

namespace Huelab

/-- A color in OKLCH space (src/packages/core/src/types.ts, `OklchColor`). -/
structure OklchColor where
  l : ℚ
  c : ℚ
  h : ℚ
deriving DecidableEq

/-- 0-255 integer rgb triple (types.ts, the `rgb` field of `Color`). -/
structure Rgb255 where
  r : ℤ
  g : ℤ
  b : ℤ
deriving DecidableEq

/-- A color in multiple representations (types.ts, `Color`). -/
structure Color where
  oklch : OklchColor
  hex : String
  rgb : Rgb255
deriving DecidableEq

/-- The chroma distribution curve (types.ts, `ChromaCurve`). -/
inductive ChromaCurve where
  | natural
  | linear
  | flat
deriving DecidableEq

/-- Ramp generation parameters (types.ts, `RampParams`). -/
structure RampParams where
  baseColor : String
  chromaCurve : ChromaCurve
  hueShift : ℚ
  baseLightness : Option ℚ
deriving DecidableEq

/-- A stop definition supplied by the preset (types.ts, `StopDefinition`).
The `lightness` field is documented in the source as "Target lightness
(0-1)". -/
structure StopDefinition where
  id : ℤ
  label : String
  lightness : ℚ
deriving DecidableEq

/-- A partial OKLCH override: which of l/c/h were manually pinned
(types.ts, the type of `RampStop.overrides`). -/
structure OverridePatch where
  l : Option ℚ
  c : Option ℚ
  h : Option ℚ
deriving DecidableEq

/-- A single stop in a color ramp (types.ts, `RampStop`). -/
structure RampStop where
  id : ℤ
  color : Color
  overridden : Bool
  overrides : Option OverridePatch
deriving DecidableEq

/-- A complete color ramp (types.ts, `Ramp`). -/
structure Ramp where
  name : String
  params : RampParams
  stops : List RampStop
  baseStopId : ℤ
deriving DecidableEq

/-- The third-party color-science primitives used by the core (culori and
apca-w3).  These libraries are not part of the repository, so they are kept
abstract; each theorem states the properties of the real functions it needs
as hypotheses.
* `parse` — culori `parse` composed with `converter('oklch')` and the
  repository's `|| 0` / `?? 0` normalizations (oklch.ts `parseColor`).
* `clampChroma` — culori `clampChroma(·, 'oklch')` with the repository's
  `|| 0` / `?? 0` normalizations folded in.
* `formatHex` — culori `formatHex` on an oklch object.
* `rgbOf` — culori `converter('rgb')`, channels as 0-1 rationals.
* `wcag` — culori `wcagContrast` on two oklch objects.
* `sRGBtoY`, `APCAcontrast` — the apca-w3 primitives (the string-return
  branch of `APCAcontrast` followed by `parseFloat` is folded into the
  function). -/
structure ColorKernel where
  parse : String → Option OklchColor
  clampChroma : OklchColor → OklchColor
  formatHex : OklchColor → String
  rgbOf : OklchColor → ℚ × ℚ × ℚ
  wcag : OklchColor → OklchColor → ℚ
  sRGBtoY : Rgb255 → ℚ
  APCAcontrast : ℚ → ℚ → ℚ

/-- JavaScript `Math.round`: nearest integer, halves toward +∞. -/
def jsRound (q : ℚ) : ℤ := ⌊q + 1/2⌋

/-- `Math.round(x * 255) || 0` as used for rgb channel bytes; on ℚ the
`|| 0` only normalizes `-0`/`NaN`, which do not exist here. -/
def jsRound255 (q : ℚ) : ℤ := jsRound (q * 255)

/-- JavaScript `%` (fmod): result has the sign of the dividend.  Only used
with positive divisors. -/
def jsFmod (x y : ℚ) : ℚ :=
  if 0 ≤ x then x - y * ⌊x / y⌋ else -((-x) - y * ⌊(-x) / y⌋)

-- ---------------------------------------------------------------------------
-- oklch.ts (ColorSpace)
-- ---------------------------------------------------------------------------

/-- oklch.ts `parseColor`: parse any CSS color string to an `OklchColor`,
`undefined` (here `none`) if it cannot be parsed. -/
def parseColor (K : ColorKernel) (input : String) : Option OklchColor :=
  K.parse input

/-- oklch.ts `clampToSrgb`: clamp to the sRGB gamut by reducing chroma via
culori's `clampChroma` in oklch space. -/
def clampToSrgb (K : ColorKernel) (color : OklchColor) : OklchColor :=
  K.clampChroma color

/-- oklch.ts `hueDifference`: shortest angular distance between two hues.
`const diff = Math.abs(h1 - h2) % 360; return diff > 180 ? 360 - diff : diff;` -/
def hueDifference (h1 h2 : ℚ) : ℚ :=
  let diff := jsFmod |h1 - h2| 360
  if diff > 180 then 360 - diff else diff

/-- oklch.ts `toColor`: full Color from a CSS string; the TS version throws
`Invalid color: ...` on parse failure, modelled as `none`. -/
def toColor (K : ColorKernel) (input : String) : Option Color :=
  match K.parse input with
  | none => none
  | some o =>
      some { oklch := o
             hex := K.formatHex o
             rgb := { r := jsRound255 (K.rgbOf o).1
                      g := jsRound255 (K.rgbOf o).2.1
                      b := jsRound255 (K.rgbOf o).2.2 } }

-- ---------------------------------------------------------------------------
-- ramp.ts (RampGenerator)
-- ---------------------------------------------------------------------------

/-- ramp.ts `NATURAL_SCALES`. -/
def NATURAL_SCALES : List ℚ :=
  [8/100, 20/100, 45/100, 75/100, 93/100, 1, 96/100, 85/100, 70/100, 50/100, 30/100]

/-- ramp.ts `LINEAR_SCALES`. -/
def LINEAR_SCALES : List ℚ :=
  [10/100, 28/100, 46/100, 64/100, 82/100, 1, 91/100, 82/100, 73/100, 55/100, 36/100]

/-- ramp.ts `FLAT_SCALES`. -/
def FLAT_SCALES : List ℚ := [1, 1, 1, 1, 1, 1, 1, 1, 1, 1, 1]

/-- ramp.ts `AUTO_HUE_SHIFT_DEGREES`. -/
def AUTO_HUE_SHIFT_DEGREES : ℚ := 10

/-- ramp.ts `getChromaScales`. -/
def getChromaScales (curve : ChromaCurve) : List ℚ :=
  match curve with
  | .natural => NATURAL_SCALES
  | .linear => LINEAR_SCALES
  | .flat => FLAT_SCALES

/-- ramp.ts `oklchToColor` (the identical private helper also appears in
overrides.ts): clamp to sRGB, then derive hex and rgb from the clamped
values.  An index out of range in JS (`chromaScales[index]` for more than 11
stops) yields `NaN` chroma, which culori's `clampChroma` collapses to chroma
0 with lightness and hue kept; list access is therefore modelled with
default 0 at the call sites. -/
def oklchToColor (K : ColorKernel) (l c h : ℚ) : Color :=
  let clamped := clampToSrgb K { l := l, c := c, h := h }
  { oklch := clamped
    hex := K.formatHex clamped
    rgb := { r := jsRound255 (K.rgbOf clamped).1
             g := jsRound255 (K.rgbOf clamped).2.1
             b := jsRound255 (K.rgbOf clamped).2.2 } }

/-- ramp.ts `findClosestStopId`: id of the stop definition whose lightness
target is closest to the given lightness; strict `<` keeps the first
minimizer on ties.  The TS function reads `stops[0]`, so the model takes the
head explicitly. -/
def findClosestStopId (lightness : ℚ) (s0 : StopDefinition)
    (rest : List StopDefinition) : ℤ :=
  (rest.foldl
    (fun acc stop =>
      if |stop.lightness - lightness| < acc.2
      then (stop.id, |stop.lightness - lightness|)
      else acc)
    (s0.id, |s0.lightness - lightness|)).1

/-- One generated stop of ramp.ts `generateRamp`: lightness is the stop
definition's fixed target, chroma the base chroma scaled by the curve
factor, hue the base hue plus the interpolated shift (0 offset when
`lastIndex` is 0 — the `lastIndex > 0` guard — and hue forced to 0 when
achromatic). -/
def mkRampStop (K : ColorKernel) (isAchromatic : Bool)
    (baseChroma baseHue hueShiftAmount : ℚ) (chromaScales : List ℚ)
    (lastIndex : ℕ) (index : ℕ) (stopDef : StopDefinition) : RampStop :=
  let lightness := stopDef.lightness
  let chroma := baseChroma * chromaScales.getD index 0
  let hueOffset : ℚ :=
    if 0 < lastIndex
    then -hueShiftAmount / 2 + hueShiftAmount * index / (lastIndex : ℚ)
    else 0
  let hue := if isAchromatic then 0 else baseHue + hueOffset
  { id := stopDef.id
    color := oklchToColor K lightness chroma hue
    overridden := false
    overrides := none }

/-- The `stops.map((stopDef, index) => ...)` loop of `generateRamp`, with the
JS map index made explicit. -/
def buildRampStops (K : ColorKernel) (isAchromatic : Bool)
    (baseChroma baseHue hueShiftAmount : ℚ) (chromaScales : List ℚ)
    (lastIndex : ℕ) : ℕ → List StopDefinition → List RampStop
  | _, [] => []
  | index, stopDef :: rest =>
      mkRampStop K isAchromatic baseChroma baseHue hueShiftAmount chromaScales
          lastIndex index stopDef
        :: buildRampStops K isAchromatic baseChroma baseHue hueShiftAmount
            chromaScales lastIndex (index + 1) rest

/-- ramp.ts `generateRamp` (the current version, taking `chromaCurve` and
`autoHueShift` as trailing arguments; TS defaults them to `'natural'` and
`false`, which callers in overrides.ts rely on and pass explicitly here).
The TS function throws `Invalid base color: ...` for an unparseable base and
crashes with a TypeError on an empty stop list; both are modelled as
`Except.error`. -/
def generateRamp (K : ColorKernel) (name : String) (params : RampParams)
    (stops : List StopDefinition) (chromaCurve : ChromaCurve)
    (autoHueShift : Bool) : Except String Ramp :=
  match parseColor K params.baseColor with
  | none => .error ("Invalid base color: " ++ params.baseColor)
  | some baseOklch =>
      match stops with
      | [] => .error ("TypeError: cannot read stops[0] of an empty stop list")
      | s0 :: rest =>
          let baseChroma := baseOklch.c
          let isAchromatic := decide (baseChroma < 1/1000)
          let baseHue := if baseChroma < 1/1000 then 0 else baseOklch.h
          let baseStopId := findClosestStopId baseOklch.l s0 rest
          let chromaScales := getChromaScales chromaCurve
          let lastIndex := (s0 :: rest).length - 1
          let hueShiftAmount : ℚ := if autoHueShift then AUTO_HUE_SHIFT_DEGREES else 0
          .ok { name := name
                params := params
                stops := buildRampStops K isAchromatic baseChroma baseHue
                  hueShiftAmount chromaScales lastIndex 0 (s0 :: rest)
                baseStopId := baseStopId }

/-- ramp.ts `computeBaseStopHex`: run the base-stop math only (lightness
target + chroma curve, no hue shift) and return the hex, or `none` when the
base color cannot be parsed.  The TS function crashes on an empty stop list
(`stops[0]` in `findClosestStopId`), modelled as `none`. -/
def computeBaseStopHex (K : ColorKernel) (baseColor : String)
    (stops : List StopDefinition) (chromaCurve : ChromaCurve) : Option String :=
  match parseColor K baseColor with
  | none => none
  | some baseOklch =>
      match stops with
      | [] => none
      | s0 :: rest =>
          let baseStopId := findClosestStopId baseOklch.l s0 rest
          match (s0 :: rest).find? (fun s => s.id == baseStopId) with
          | none => none
          | some stopDef =>
              let baseChroma := baseOklch.c
              let baseHue := if baseChroma < 1/1000 then 0 else baseOklch.h
              let chromaScales := getChromaScales chromaCurve
              let stopIndex := (s0 :: rest).findIdx (fun s => s.id == baseStopId)
              let chroma := baseChroma * chromaScales.getD stopIndex 0
              some (oklchToColor K stopDef.lightness chroma baseHue).hex

-- ---------------------------------------------------------------------------
-- overrides.ts (OverrideEngine)
-- ---------------------------------------------------------------------------

/-- overrides.ts `applyOverride`: regenerate the algorithmic baseline from
the ramp's current params (with `generateRamp`'s TS default curve/hue-shift
arguments), merge the supplied partial onto the baseline component-wise,
gamut-clamp, mark the stop overridden, store the exact supplied partial, and
pass every other stop through unchanged.  TS throws
`Stop ... not found in ramp` when the stop id is not in the stop
definitions, modelled as `Except.error`. -/
def applyOverride (K : ColorKernel) (ramp : Ramp) (stopId : ℤ)
    (ov : OverridePatch) (stops : List StopDefinition) : Except String Ramp :=
  match generateRamp K ramp.name ramp.params stops ChromaCurve.natural false with
  | .error e => .error e
  | .ok algorithmic =>
      match algorithmic.stops.find? (fun s => s.id == stopId) with
      | none => .error ("Stop " ++ toString stopId ++ " not found in ramp")
      | some algoStop =>
          let baseOklch := algoStop.color.oklch
          let mergedL := ov.l.getD baseOklch.l
          let mergedC := ov.c.getD baseOklch.c
          let mergedH := ov.h.getD baseOklch.h
          let color := oklchToColor K mergedL mergedC mergedH
          let overriddenStop : RampStop :=
            { id := stopId, color := color, overridden := true, overrides := some ov }
          let newStops := ramp.stops.map
            (fun stop => if stop.id = stopId then overriddenStop else stop)
          .ok { ramp with stops := newStops }

/-- overrides.ts `clearAllOverrides`: simply regenerate the entire ramp from
scratch. -/
def clearAllOverrides (K : ColorKernel) (ramp : Ramp)
    (stops : List StopDefinition) : Except String Ramp :=
  generateRamp K ramp.name ramp.params stops ChromaCurve.natural false

-- ---------------------------------------------------------------------------
-- contrast.ts (ContrastEngine)
-- ---------------------------------------------------------------------------

/-- contrast.ts `ContrastThresholds`. -/
structure ContrastThresholds where
  normalText : ℚ
  largeText : ℚ
  uiComponent : ℚ
deriving DecidableEq

/-- contrast.ts `AA_THRESHOLDS`: WCAG 2.2 AA thresholds. -/
def AA_THRESHOLDS : ContrastThresholds :=
  { normalText := 9/2, largeText := 3, uiComponent := 3 }

/-- The `passesAA` record of contrast.ts `ContrastResult`. -/
structure PassesAA where
  normalText : Bool
  largeText : Bool
  uiComponent : Bool
deriving DecidableEq

/-- contrast.ts `ContrastResult`. -/
structure ContrastResult where
  wcagRatio : ℚ
  apcaLc : ℚ
  passesAA : PassesAA
deriving DecidableEq

/-- contrast.ts `toRgb255`: OklchColor to 0-255 integer rgb for apca-w3. -/
def toRgb255 (K : ColorKernel) (color : OklchColor) : Rgb255 :=
  { r := jsRound255 (K.rgbOf color).1
    g := jsRound255 (K.rgbOf color).2.1
    b := jsRound255 (K.rgbOf color).2.2 }

/-- contrast.ts `wcagRatio`: culori `wcagContrast` on the two colors. -/
def wcagRatio (K : ColorKernel) (fg bg : OklchColor) : ℚ :=
  K.wcag fg bg

/-- contrast.ts `apcaLc`: convert both colors to 0-255 rgb, take apca-w3
luminances, and run `APCAcontrast`. -/
def apcaLc (K : ColorKernel) (textColor bgColor : OklchColor) : ℚ :=
  K.APCAcontrast (K.sRGBtoY (toRgb255 K textColor)) (K.sRGBtoY (toRgb255 K bgColor))

/-- contrast.ts `checkContrast`: bundle ratio and Lc and evaluate the WCAG
ratio against the fixed AA thresholds (`ratio >= threshold`). -/
def checkContrast (K : ColorKernel) (fg bg : OklchColor) : ContrastResult :=
  let ratio := wcagRatio K fg bg
  let lc := apcaLc K fg bg
  { wcagRatio := ratio
    apcaLc := lc
    passesAA :=
      { normalText := decide (AA_THRESHOLDS.normalText ≤ ratio)
        largeText := decide (AA_THRESHOLDS.largeText ≤ ratio)
        uiComponent := decide (AA_THRESHOLDS.uiComponent ≤ ratio) } }

-- ---------------------------------------------------------------------------
-- resolver.ts (TokenResolver)
-- ---------------------------------------------------------------------------

/-- types.ts `TokenSource`: tagged union of a ramp reference and a literal
CSS color string. -/
inductive TokenSource where
  | ramp (ramp : String) (stop : ℤ)
  | literal (value : String)
deriving DecidableEq

/-- types.ts `TokenDefinition` (the optional `description` field is omitted:
it is never read by the resolver). -/
structure TokenDefinition where
  name : String
  light : TokenSource
  dark : TokenSource
deriving DecidableEq

/-- types.ts `ResolvedToken`. -/
structure ResolvedToken where
  name : String
  light : Color
  dark : Color
  lightSource : String
  darkSource : String
deriving DecidableEq

/-- The errors thrown by resolver.ts / oklch.ts during token resolution,
as a structured type.  `rampNotFound` and `stopNotFound` are the
`ReferenceNotFound` kind of the spec; `invalidColor` is the `InvalidColor`
kind thrown by oklch.ts `toColor`.  The exact thrown message strings are
reproduced by `ResolveError.message`. -/
inductive ResolveError where
  | invalidColor (input : String)
  | rampNotFound (rampName : String) (availableRamps : List String)
  | stopNotFound (stopId : ℤ) (rampName : String) (availableStops : List ℤ)
deriving DecidableEq

/-- `ramps.map(r => r.name).join(', ') || '(none)'` from resolver.ts. -/
def availList (names : List String) : String :=
  let joined := String.intercalate ", " names
  if joined = "" then "(none)" else joined

/-- The exact TS error message for each error (template literals from
resolver.ts lines 39-48 and oklch.ts line 48). -/
def ResolveError.message : ResolveError → String
  | .invalidColor input => "Invalid color: " ++ input
  | .rampNotFound rampName avail =>
      "Ramp \"" ++ rampName ++ "\" not found. Available ramps: " ++ availList avail
  | .stopNotFound stopId rampName avail =>
      "Stop " ++ toString stopId ++ " not found in ramp \"" ++ rampName ++
        "\". Available stops: " ++ String.intercalate ", " (avail.map toString)

/-- Whether an error is of the spec's `ReferenceNotFound` kind. -/
def ResolveError.isReferenceNotFound : ResolveError → Bool
  | .invalidColor _ => false
  | .rampNotFound _ _ => true
  | .stopNotFound _ _ _ => true

/-- resolver.ts `resolveSource`: resolve one `TokenSource` to a Color and a
source label; ramp sources look up the ramp by name then the stop by id,
failing with the enumerated alternatives in the message. -/
def resolveSource (K : ColorKernel) (source : TokenSource) (ramps : List Ramp) :
    Except ResolveError (Color × String) :=
  match source with
  | .literal value =>
      match toColor K value with
      | none => .error (.invalidColor value)
      | some c => .ok (c, "literal")
  | .ramp rampName stopId =>
      match ramps.find? (fun r => r.name == rampName) with
      | none => .error (.rampNotFound rampName (ramps.map (fun r => r.name)))
      | some ramp =>
          match ramp.stops.find? (fun s => s.id == stopId) with
          | none =>
              .error (.stopNotFound stopId rampName (ramp.stops.map (fun s => s.id)))
          | some stop => .ok (stop.color, rampName ++ "-" ++ toString stopId)

/-- The per-token body of resolver.ts `resolveTokens`: light resolved first,
then dark (a thrown error aborts the whole call). -/
def resolveToken (K : ColorKernel) (ramps : List Ramp) (token : TokenDefinition) :
    Except ResolveError ResolvedToken :=
  match resolveSource K token.light ramps with
  | .error e => .error e
  | .ok light =>
      match resolveSource K token.dark ramps with
      | .error e => .error e
      | .ok dark =>
          .ok { name := token.name
                light := light.1
                dark := dark.1
                lightSource := light.2
                darkSource := dark.2 }

/-- resolver.ts `resolveTokens`: `tokens.map(...)` where any thrown error
aborts the whole call with no partial result (modelled by `Except`). -/
def resolveTokens (K : ColorKernel) (tokens : List TokenDefinition)
    (ramps : List Ramp) : Except ResolveError (List ResolvedToken) :=
  match tokens with
  | [] => .ok []
  | t :: rest =>
      match resolveToken K ramps t with
      | .error e => .error e
      | .ok rt =>
          match resolveTokens K rest ramps with
          | .error e => .error e
          | .ok rts => .ok (rt :: rts)

-- ---------------------------------------------------------------------------
-- Predicates used to state the resolver claims
-- ---------------------------------------------------------------------------

/-- A ramp-kind source that names a ramp absent from `ramps`, or a stop id
absent from the found ramp (the failure condition of claim C7). -/
def sourceRefMissing (ramps : List Ramp) : TokenSource → Bool
  | .literal _ => false
  | .ramp rampName stopId =>
      match ramps.find? (fun r => r.name == rampName) with
      | none => true
      | some ramp => (ramp.stops.find? (fun s => s.id == stopId)).isNone

/-- Either source of a token is a missing ramp reference. -/
def tokenRefMissing (ramps : List Ramp) (t : TokenDefinition) : Bool :=
  sourceRefMissing ramps t.light || sourceRefMissing ramps t.dark

/-- Every literal source of this token source parses (true for ramp
sources). -/
def sourceLitOk (K : ColorKernel) : TokenSource → Bool
  | .literal s => (K.parse s).isSome
  | .ramp _ _ => true

/-- Both sources of the token have parseable literals (if any). -/
def tokenLitOk (K : ColorKernel) (t : TokenDefinition) : Bool :=
  sourceLitOk K t.light && sourceLitOk K t.dark

/-- What a `ReferenceNotFound` failure of `resolveTokens` looks like: a
`rampNotFound` naming a ramp absent from `ramps` and enumerating all ramp
names, or a `stopNotFound` naming a stop absent from the found ramp and
enumerating that ramp's stop ids; in both cases the rendered message is the
exact TS template containing the missing identifier and the alternatives. -/
def RefShape (e : ResolveError) (ramps : List Ramp) : Prop :=
  (∃ n, e = ResolveError.rampNotFound n (ramps.map (fun r => r.name)) ∧
    ramps.find? (fun r => r.name == n) = none ∧
    e.message = "Ramp \"" ++ n ++ "\" not found. Available ramps: " ++
      availList (ramps.map (fun r => r.name)))
  ∨ (∃ sid n rp, e = ResolveError.stopNotFound sid n (rp.stops.map (fun s => s.id)) ∧
      ramps.find? (fun r => r.name == n) = some rp ∧
      rp.stops.find? (fun s => s.id == sid) = none ∧
      e.message = "Stop " ++ toString sid ++ " not found in ramp \"" ++ n ++
        "\". Available stops: " ++
        String.intercalate ", " ((rp.stops.map (fun s => s.id)).map toString))

-- ---------------------------------------------------------------------------
-- Concrete fixtures for witnesses and counterexamples
-- ---------------------------------------------------------------------------

/-- Injective text encoding of a rational, used by the demo kernels below. -/
def encodeQ (q : ℚ) : String := toString q.num ++ "/" ++ toString q.den

/-- Injective text encoding of an OKLCH triple: the demo kernels use it as
their `formatHex`, so distinct clamped colors get distinct "hex" strings. -/
def encodeOklch (x : OklchColor) : String :=
  "oklch<" ++ encodeQ x.l ++ "," ++ encodeQ x.c ++ "," ++ encodeQ x.h ++ ">"

/-- Maximal chroma of the demo gamut at a given lightness. -/
def demoMaxC (l : ℚ) : ℚ := max 0 (min l (1 - l))

/-- Demo `clampChroma`: reduce chroma to the demo gamut bound, keeping
lightness and hue — the shape culori's `clampChroma` has on in-range
lightness. -/
def demoClamp (x : OklchColor) : OklchColor :=
  if x.c ≤ demoMaxC x.l then x else { l := x.l, c := demoMaxC x.l, h := x.h }

/-- Demo parse table: a handful of CSS colors with exact rational OKLCH
values close to the real ones; everything else is unparseable. -/
def demoParse (s : String) : Option OklchColor :=
  if s = "#3366cc" then some { l := 53/100, c := 3/20, h := 262 }
  else if s = "#808080" then some { l := 3/5, c := 0, h := 0 }
  else if s = "#ffffff" then some { l := 1, c := 0, h := 0 }
  else none

/-- A concrete executable kernel used by the witnesses. -/
def demoK : ColorKernel :=
  { parse := demoParse
    clampChroma := demoClamp
    formatHex := encodeOklch
    rgbOf := fun x => (x.l, x.l, x.l)
    wcag := fun fg bg => if fg = bg then 1 else 21
    sRGBtoY := fun rgb => (rgb.r : ℚ) / 255
    APCAcontrast := fun a b => b - a }

/-- Same kernel with a different APCA implementation (same WCAG one). -/
def demoK2 : ColorKernel :=
  { demoK with APCAcontrast := fun a b => a - b + 7 }

/-- Idealized kernel for evaluating `computeBaseStopHex`: parsing the
encoded output returns exactly the encoded OKLCH values (a lossless
hex round-trip) and no gamut clamping is needed at the values involved.
`#c32615` gets its real OKLCH values rounded to exact rationals
(L ≈ 0.53, C ≈ 0.2, H ≈ 30). -/
def c1K : ColorKernel :=
  { parse := fun s =>
      if s = "#c32615" then some { l := 53/100, c := 1/5, h := 30 }
      else if s = encodeOklch { l := 53/100, c := 24/125, h := 30 } then
        some { l := 53/100, c := 24/125, h := 30 }
      else none
    clampChroma := fun x => x
    formatHex := encodeOklch
    rgbOf := fun x => (x.l, x.l, x.l)
    wcag := fun _ _ => 1
    sRGBtoY := fun rgb => (rgb.r : ℚ) / 255
    APCAcontrast := fun a b => b - a }

/-- The 11 Tailwind-style stop definitions used by the repository's preset
and tests (ids 50…950, lightness 0.985…0.17). -/
def TAILWIND_STOPS : List StopDefinition :=
  [{ id := 50, label := "50", lightness := 197/200 },
   { id := 100, label := "100", lightness := 93/100 },
   { id := 200, label := "200", lightness := 87/100 },
   { id := 300, label := "300", lightness := 4/5 },
   { id := 400, label := "400", lightness := 71/100 },
   { id := 500, label := "500", lightness := 62/100 },
   { id := 600, label := "600", lightness := 53/100 },
   { id := 700, label := "700", lightness := 45/100 },
   { id := 800, label := "800", lightness := 37/100 },
   { id := 900, label := "900", lightness := 27/100 },
   { id := 950, label := "950", lightness := 17/100 }]

/-- Fallback values for extracting the payload of a known-successful call. -/
def junkRamp : Ramp :=
  { name := ""
    params := { baseColor := "", chromaCurve := ChromaCurve.natural,
                hueShift := 0, baseLightness := none }
    stops := []
    baseStopId := 0 }

/-- Extract the `ok` payload of an `Except`, with a fallback. -/
def exceptOk (e : Except String Ramp) (dflt : Ramp) : Ramp :=
  match e with
  | .ok r => r
  | .error _ => dflt

/-- Parameters of the witness ramp. -/
def wParams : RampParams :=
  { baseColor := "#3366cc", chromaCurve := ChromaCurve.natural,
    hueShift := 0, baseLightness := none }

/-- Witness ramp: a full 11-stop ramp generated by the demo kernel. -/
def wRamp : Ramp :=
  exceptOk (generateRamp demoK "w" wParams TAILWIND_STOPS ChromaCurve.natural false)
    junkRamp

/-- The override patch used by the C3 witness. -/
def c3Patch : OverridePatch := { l := some (1/2), c := none, h := none }

/-- Result of applying the C3 witness override. -/
def c3Ramp : Ramp :=
  exceptOk (applyOverride demoK wRamp 500 c3Patch TAILWIND_STOPS) junkRamp

/-- Result of clearing all overrides on the witness ramp. -/
def c8Ramp : Ramp :=
  exceptOk (clearAllOverrides demoK wRamp TAILWIND_STOPS) junkRamp

/-- Parameters of the achromatic witness ramp. -/
def grayParams : RampParams :=
  { baseColor := "#808080", chromaCurve := ChromaCurve.flat,
    hueShift := 0, baseLightness := none }

/-- Achromatic witness ramp (base chroma 0 < 0.001). -/
def c5Ramp : Ramp :=
  exceptOk (generateRamp demoK "neutral" grayParams TAILWIND_STOPS ChromaCurve.flat false)
    junkRamp

/-- The single stop definition of the C10 witness. -/
def oneStop : StopDefinition := { id := 500, label := "500", lightness := 62/100 }

/-- Single-stop witness ramp, with auto hue shift enabled. -/
def c10Ramp : Ramp :=
  exceptOk (generateRamp demoK "one" wParams [oneStop] ChromaCurve.natural true)
    junkRamp

/-- A resolved Color for the fixture ramp stop. -/
def demoColor : Color := oklchToColor demoK (62/100) (3/20) 262

/-- Fixture ramp list for the resolver claims: one ramp named "blue" with a
single stop 500. -/
def c7Ramps : List Ramp :=
  [{ name := "blue", params := wParams,
     stops := [{ id := 500, color := demoColor, overridden := false, overrides := none }],
     baseStopId := 500 }]

/-- Token whose light source is an unparseable literal and whose dark source
references a nonexistent stop 999 of ramp "blue". -/
def c7BadTokens : List TokenDefinition :=
  [{ name := "bad", light := TokenSource.literal "not-a-color",
     dark := TokenSource.ramp "blue" 999 }]

/-- Token with a valid literal and a reference to nonexistent stop 999. -/
def c7GoodTokens : List TokenDefinition :=
  [{ name := "good", light := TokenSource.ramp "blue" 999,
     dark := TokenSource.literal "#ffffff" }]

-- ---------------------------------------------------------------------------
-- Helper lemmas
-- ---------------------------------------------------------------------------

lemma demoClamp_l (x : OklchColor) : (demoClamp x).l = x.l := by
  unfold demoClamp; split <;> rfl

lemma demoClamp_h (x : OklchColor) : (demoClamp x).h = x.h := by
  unfold demoClamp; split <;> rfl

lemma jsFmod_nonneg_lt (x : ℚ) (hx : 0 ≤ x) :
    0 ≤ jsFmod x 360 ∧ jsFmod x 360 < 360 := by
  unfold jsFmod
  rw [if_pos hx]
  have hfr0 := Int.fract_nonneg (x / 360)
  have hfr1 := Int.fract_lt_one (x / 360)
  have key : x - 360 * ⌊x / 360⌋ = 360 * Int.fract (x / 360) := by
    unfold Int.fract
    ring
  constructor
  · rw [key]
    exact mul_nonneg (by norm_num) hfr0
  · rw [key]
    calc 360 * Int.fract (x / 360) < 360 * 1 :=
          mul_lt_mul_of_pos_left hfr1 (by norm_num)
      _ = 360 := mul_one 360

lemma buildRampStops_map_l (K : ColorKernel)
    (hclamp : ∀ x, 0 ≤ x.l → x.l ≤ 1 → (K.clampChroma x).l = x.l)
    (ach : Bool) (bc bh hs : ℚ) (scales : List ℚ) (li : ℕ) :
    ∀ (index : ℕ) (defs : List StopDefinition),
      (∀ d ∈ defs, 0 ≤ d.lightness ∧ d.lightness ≤ 1) →
      (buildRampStops K ach bc bh hs scales li index defs).map
          (fun s => s.color.oklch.l)
        = defs.map (fun d => d.lightness) := by
  intro index defs
  induction defs generalizing index with
  | nil => intro _; rfl
  | cons d rest ih =>
      intro hd
      have h1 := hd d (List.mem_cons_self d rest)
      simp only [buildRampStops, List.map_cons, List.cons.injEq]
      constructor
      · exact hclamp _ h1.1 h1.2
      · exact ih (index + 1) (fun d' hd' => hd d' (List.mem_cons_of_mem _ hd'))

lemma buildRampStops_map_h_achromatic (K : ColorKernel)
    (hclamp0 : ∀ x, x.h = 0 → (K.clampChroma x).h = 0)
    (ach : Bool) (hach : ach = true)
    (bc bh hs : ℚ) (scales : List ℚ) (li : ℕ) :
    ∀ (index : ℕ) (defs : List StopDefinition),
      (buildRampStops K ach bc bh hs scales li index defs).map
          (fun s => s.color.oklch.h)
        = List.replicate defs.length 0 := by
  subst hach
  intro index defs
  induction defs generalizing index with
  | nil => rfl
  | cons d rest ih =>
      simp only [buildRampStops, List.map_cons, List.length_cons,
        List.replicate_succ, List.cons.injEq]
      exact ⟨hclamp0 _ rfl, ih (index + 1)⟩

lemma buildRampStops_length (K : ColorKernel) (ach : Bool)
    (bc bh hs : ℚ) (scales : List ℚ) (li : ℕ) :
    ∀ (index : ℕ) (defs : List StopDefinition),
      (buildRampStops K ach bc bh hs scales li index defs).length
        = defs.length := by
  intro index defs
  induction defs generalizing index with
  | nil => rfl
  | cons d rest ih =>
      simp only [buildRampStops, List.length_cons]
      rw [ih (index + 1)]

lemma buildRampStops_mem_flags (K : ColorKernel) (ach : Bool)
    (bc bh hs : ℚ) (scales : List ℚ) (li : ℕ) :
    ∀ (index : ℕ) (defs : List StopDefinition) (s : RampStop),
      s ∈ buildRampStops K ach bc bh hs scales li index defs →
      s.overridden = false ∧ s.overrides = none := by
  intro index defs
  induction defs generalizing index with
  | nil => intro s hs; exact absurd hs (List.not_mem_nil s)
  | cons d rest ih =>
      intro s hs
      rcases List.mem_cons.mp hs with h | h
      · subst h; exact ⟨rfl, rfl⟩
      · exact ih (index + 1) s h

-- ---------------------------------------------------------------------------
-- Claims
-- ---------------------------------------------------------------------------

/-- Claim C9: `hueDifference` is symmetric and its value always lies in the
closed interval [0, 180], for arbitrary rational hue angles. -/
theorem C9_hueDifference_symm_and_range (h1 h2 : ℚ) :
    hueDifference h1 h2 = hueDifference h2 h1 ∧
    0 ≤ hueDifference h1 h2 ∧ hueDifference h1 h2 ≤ 180 := by
  have hb := jsFmod_nonneg_lt |h1 - h2| (abs_nonneg _)
  refine ⟨?_, ?_, ?_⟩
  · unfold hueDifference
    rw [abs_sub_comm]
  · unfold hueDifference
    show 0 ≤ if jsFmod |h1 - h2| 360 > 180
      then 360 - jsFmod |h1 - h2| 360 else jsFmod |h1 - h2| 360
    split
    · linarith [hb.2]
    · exact hb.1
  · unfold hueDifference
    show (if jsFmod |h1 - h2| 360 > 180
      then 360 - jsFmod |h1 - h2| 360 else jsFmod |h1 - h2| 360) ≤ 180
    split
    · linarith [hb.1]
    · linarith [hb.1]

/-- Claim C6: `checkContrast` passes AA for normal text exactly when the
WCAG ratio is at least 4.5, and for large text / UI components exactly when
it is at least 3; and the APCA machinery (`sRGBtoY`, `APCAcontrast`, the rgb
conversion feeding them) never influences any `passesAA` field — two
kernels agreeing on `wcagContrast` produce identical `passesAA` records. -/
theorem C6_checkContrast_aa_thresholds (K₁ K₂ : ColorKernel)
    (fg bg : OklchColor) (hw : K₁.wcag = K₂.wcag) :
    ((checkContrast K₁ fg bg).passesAA.normalText = true ↔
      9/2 ≤ wcagRatio K₁ fg bg) ∧
    ((checkContrast K₁ fg bg).passesAA.largeText = true ↔
      3 ≤ wcagRatio K₁ fg bg) ∧
    ((checkContrast K₁ fg bg).passesAA.uiComponent = true ↔
      3 ≤ wcagRatio K₁ fg bg) ∧
    (checkContrast K₁ fg bg).passesAA = (checkContrast K₂ fg bg).passesAA := by
  have hpa : ∀ K : ColorKernel, (checkContrast K fg bg).passesAA =
      { normalText := decide (9/2 ≤ wcagRatio K fg bg)
        largeText := decide (3 ≤ wcagRatio K fg bg)
        uiComponent := decide (3 ≤ wcagRatio K fg bg) } := fun _ => rfl
  have hr : wcagRatio K₁ fg bg = wcagRatio K₂ fg bg :=
    congrFun (congrFun hw fg) bg
  refine ⟨?_, ?_, ?_, ?_⟩
  · rw [hpa]
    exact decide_eq_true_iff
  · rw [hpa]
    exact decide_eq_true_iff
  · rw [hpa]
    exact decide_eq_true_iff
  · rw [hpa, hpa, hr]

/-- Witness for C6: concrete black/white pair under the demo kernel and a
second kernel differing only in its APCA implementation. -/
theorem C6_checkContrast_aa_thresholds_witness :
    ((checkContrast demoK ⟨0, 0, 0⟩ ⟨1, 0, 0⟩).passesAA.normalText = true ↔
      9/2 ≤ wcagRatio demoK ⟨0, 0, 0⟩ ⟨1, 0, 0⟩) ∧
    ((checkContrast demoK ⟨0, 0, 0⟩ ⟨1, 0, 0⟩).passesAA.largeText = true ↔
      3 ≤ wcagRatio demoK ⟨0, 0, 0⟩ ⟨1, 0, 0⟩) ∧
    ((checkContrast demoK ⟨0, 0, 0⟩ ⟨1, 0, 0⟩).passesAA.uiComponent = true ↔
      3 ≤ wcagRatio demoK ⟨0, 0, 0⟩ ⟨1, 0, 0⟩) ∧
    (checkContrast demoK ⟨0, 0, 0⟩ ⟨1, 0, 0⟩).passesAA
      = (checkContrast demoK2 ⟨0, 0, 0⟩ ⟨1, 0, 0⟩).passesAA :=
  C6_checkContrast_aa_thresholds demoK demoK2 ⟨0, 0, 0⟩ ⟨1, 0, 0⟩ rfl

/-- Claim C2: every stop of a ramp produced by `generateRamp` has OKLCH
lightness equal to its stop definition's fixed lightness target (base stop
included; the parsed base color's raw lightness is never used).  Uses the
fact that culori's `clampChroma` leaves in-range lightness unchanged, and
that stop definitions carry targets in [0, 1] (types.ts documents
`lightness` as 0-1). -/
theorem C2_generateRamp_lightness_eq_target (K : ColorKernel)
    (hclamp : ∀ x, 0 ≤ x.l → x.l ≤ 1 → (K.clampChroma x).l = x.l)
    (name : String) (params : RampParams) (stops : List StopDefinition)
    (curve : ChromaCurve) (autoShift : Bool) (ramp : Ramp)
    (hstops : ∀ d ∈ stops, 0 ≤ d.lightness ∧ d.lightness ≤ 1)
    (hgen : generateRamp K name params stops curve autoShift = Except.ok ramp) :
    ramp.stops.map (fun s => s.color.oklch.l)
      = stops.map (fun d => d.lightness) := by
  unfold generateRamp at hgen
  cases hp : parseColor K params.baseColor with
  | none => rw [hp] at hgen; exact absurd hgen (by simp)
  | some b =>
      rw [hp] at hgen
      cases stops with
      | nil => exact absurd hgen (by simp)
      | cons s0 rest =>
          simp only [Except.ok.injEq] at hgen
          subst hgen
          exact buildRampStops_map_l K hclamp _ _ _ _ _ _ 0 (s0 :: rest) hstops

/-- Witness for C2: the 11-stop demo ramp from `#3366cc`. -/
theorem C2_generateRamp_lightness_eq_target_witness :
    wRamp.stops.map (fun s => s.color.oklch.l)
      = TAILWIND_STOPS.map (fun d => d.lightness) :=
  C2_generateRamp_lightness_eq_target demoK (fun x _ _ => demoClamp_l x)
    "w" wParams TAILWIND_STOPS ChromaCurve.natural false wRamp
    (of_decide_eq_true (by with_unfolding_all rfl))
    (by with_unfolding_all rfl)

/-- Claim C5: when the parsed base color's chroma is below 0.001, every stop
of the generated ramp stores hue 0, for any stop definitions, curve and
hue-shift setting.  Uses the fact that culori's `clampChroma` (with the
repository's `?? 0` fallback) maps a hue-0 input to hue 0 on every path. -/
theorem C5_generateRamp_achromatic_hue_zero (K : ColorKernel)
    (hclamp0 : ∀ x, x.h = 0 → (K.clampChroma x).h = 0)
    (name : String) (params : RampParams) (stops : List StopDefinition)
    (curve : ChromaCurve) (autoShift : Bool) (ramp : Ramp) (b : OklchColor)
    (hparse : parseColor K params.baseColor = some b)
    (hach : b.c < 1/1000)
    (hgen : generateRamp K name params stops curve autoShift = Except.ok ramp) :
    ramp.stops.map (fun s => s.color.oklch.h)
      = List.replicate stops.length 0 := by
  unfold generateRamp at hgen
  rw [hparse] at hgen
  cases stops with
  | nil => exact absurd hgen (by simp)
  | cons s0 rest =>
      simp only [Except.ok.injEq] at hgen
      subst hgen
      exact buildRampStops_map_h_achromatic K hclamp0 _ (decide_eq_true hach)
        _ _ _ _ _ 0 (s0 :: rest)

/-- Witness for C5: the gray `#808080` ramp (base chroma 0). -/
theorem C5_generateRamp_achromatic_hue_zero_witness :
    c5Ramp.stops.map (fun s => s.color.oklch.h)
      = List.replicate TAILWIND_STOPS.length 0 :=
  C5_generateRamp_achromatic_hue_zero demoK
    (fun x hx => (demoClamp_h x).trans hx)
    "neutral" grayParams TAILWIND_STOPS ChromaCurve.flat false c5Ramp
    ⟨3/5, 0, 0⟩ rfl
    (of_decide_eq_true (by with_unfolding_all rfl))
    (by with_unfolding_all rfl)

/-- Claim C10: with exactly one stop definition the hue interpolation
divisor `n − 1` is zero, but the `lastIndex > 0` guard forces the hue offset
to 0, so the single generated stop's stored hue is exactly the base hue (or
0 when achromatic) for any hue-shift setting, and `computeBaseStopHex`
likewise computes the base-hue color and returns its hex. -/
theorem C10_single_stop_hue_guard (K : ColorKernel)
    (hclamph : ∀ x, 0 ≤ x.l → x.l ≤ 1 → (K.clampChroma x).h = x.h)
    (name : String) (params : RampParams) (d : StopDefinition)
    (curve : ChromaCurve) (autoShift : Bool) (ramp : Ramp) (b : OklchColor)
    (hparse : parseColor K params.baseColor = some b)
    (hl0 : 0 ≤ d.lightness) (hl1 : d.lightness ≤ 1)
    (hgen : generateRamp K name params [d] curve autoShift = Except.ok ramp) :
    ramp.stops.map (fun s => s.color.oklch.h)
      = [if b.c < 1/1000 then 0 else b.h] ∧
    computeBaseStopHex K params.baseColor [d] curve
      = some (oklchToColor K d.lightness
          (b.c * (getChromaScales curve).getD 0 0)
          (if b.c < 1/1000 then 0 else b.h)).hex := by
  constructor
  · unfold generateRamp at hgen
    rw [hparse] at hgen
    simp only [Except.ok.injEq] at hgen
    subst hgen
    simp only [buildRampStops, List.map_cons, List.map_nil, List.cons.injEq,
      and_true]
    simp only [mkRampStop, oklchToColor, clampToSrgb]
    rw [hclamph _ hl0 hl1]
    by_cases hc : b.c < 1/1000
    · rw [if_pos hc, decide_eq_true hc]
      simp
    · rw [if_neg hc, decide_eq_false hc]
      simp
  · unfold computeBaseStopHex
    rw [hparse]
    simp [findClosestStopId, List.findIdx_cons]

/-- Witness for C10: a single-stop ramp from `#3366cc` with auto hue shift
enabled. -/
theorem C10_single_stop_hue_guard_witness :
    c10Ramp.stops.map (fun s => s.color.oklch.h)
      = [if (⟨53/100, 3/20, 262⟩ : OklchColor).c < 1/1000 then 0
         else (⟨53/100, 3/20, 262⟩ : OklchColor).h] ∧
    computeBaseStopHex demoK wParams.baseColor [oneStop] ChromaCurve.natural
      = some (oklchToColor demoK oneStop.lightness
          ((⟨53/100, 3/20, 262⟩ : OklchColor).c *
            (getChromaScales ChromaCurve.natural).getD 0 0)
          (if (⟨53/100, 3/20, 262⟩ : OklchColor).c < 1/1000 then 0
           else (⟨53/100, 3/20, 262⟩ : OklchColor).h)).hex :=
  C10_single_stop_hue_guard demoK (fun x _ _ => demoClamp_h x)
    "one" wParams oneStop ChromaCurve.natural true c10Ramp
    ⟨53/100, 3/20, 262⟩ rfl
    (by norm_num [oneStop]) (by norm_num [oneStop])
    (by with_unfolding_all rfl)

/-- Claim C3: `applyOverride` with partial `{l := v}` yields a ramp whose
targeted stop has OKLCH lightness exactly `v`, is marked overridden, and
stores the exact supplied partial; every stop with a different id passes
through unchanged.  Uses the fact that culori's `clampChroma` leaves
in-range lightness unchanged (`v` is an OKLCH lightness, documented 0-1). -/
theorem C3_applyOverride_pins_lightness (K : ColorKernel)
    (hclamp : ∀ x, 0 ≤ x.l → x.l ≤ 1 → (K.clampChroma x).l = x.l)
    (r : Ramp) (stopId : ℤ) (v : ℚ) (S : List StopDefinition) (r' : Ramp)
    (hv0 : 0 ≤ v) (hv1 : v ≤ 1)
    (hmem : ∃ s ∈ r.stops, s.id = stopId)
    (hap : applyOverride K r stopId { l := some v, c := none, h := none } S
      = Except.ok r') :
    (∃ s ∈ r'.stops, s.id = stopId ∧ s.color.oklch.l = v ∧
      s.overridden = true ∧
      s.overrides = some { l := some v, c := none, h := none }) ∧
    List.Forall₂ (fun olds news => olds.id ≠ stopId → news = olds)
      r.stops r'.stops := by
  unfold applyOverride at hap
  split at hap
  · exact absurd hap (by simp)
  · split at hap
    · exact absurd hap (by simp)
    · simp only [Except.ok.injEq] at hap
      subst hap
      constructor
      · obtain ⟨s, hs, hsid⟩ := hmem
        refine ⟨_, List.mem_map_of_mem _ hs, ?_⟩
        rw [if_pos hsid]
        exact ⟨rfl, hclamp _ hv0 hv1, rfl, rfl⟩
      · show List.Forall₂ _ r.stops (List.map _ r.stops)
        rw [List.forall₂_map_right_iff, List.forall₂_same]
        intro s _ hne
        exact if_neg hne

/-- Witness for C3: pin lightness 1/2 on stop 500 of the demo ramp. -/
theorem C3_applyOverride_pins_lightness_witness :
    (∃ s ∈ c3Ramp.stops, s.id = 500 ∧ s.color.oklch.l = 1/2 ∧
      s.overridden = true ∧ s.overrides = some c3Patch) ∧
    List.Forall₂ (fun olds news => olds.id ≠ 500 → news = olds)
      wRamp.stops c3Ramp.stops :=
  C3_applyOverride_pins_lightness demoK (fun x _ _ => demoClamp_l x)
    wRamp 500 (1/2) TAILWIND_STOPS c3Ramp (by norm_num) (by norm_num)
    (of_decide_eq_true (by with_unfolding_all rfl))
    (by with_unfolding_all rfl)

/-- Claim C4: a second `applyOverride` on the same stop fully replaces the
first one — components absent from the second partial come from the freshly
regenerated algorithmic baseline, never from the first partial.  Holds
unconditionally, error cases included. -/
theorem C4_applyOverride_replaces_previous (K : ColorKernel) (r : Ramp)
    (stopId : ℤ) (p1 p2 : OverridePatch) (S : List StopDefinition) :
    (applyOverride K r stopId p1 S).bind
        (fun r1 => applyOverride K r1 stopId p2 S)
      = applyOverride K r stopId p2 S := by
  cases hg : generateRamp K r.name r.params S ChromaCurve.natural false with
  | error e =>
      simp only [applyOverride, hg, Except.bind]
  | ok algo =>
      cases hf : algo.stops.find? (fun s => s.id == stopId) with
      | none =>
          simp only [applyOverride, hg, hf, Except.bind]
      | some algoStop =>
          simp only [applyOverride, hg, hf, Except.bind, Except.ok.injEq]
          rw [List.map_map]
          congr 1
          apply List.map_congr_left
          intro s _
          by_cases hsi : s.id = stopId
          · simp [hsi]
          · simp [hsi]

/-- Claim C8: `clearAllOverrides` is exactly a fresh `generateRamp` call
with the ramp's existing name and params; on success the result keeps the
name and params and every stop is algorithmically regenerated with
`overridden = false` and no stored overrides. -/
theorem C8_clearAllOverrides_regenerates (K : ColorKernel) (r : Ramp)
    (S : List StopDefinition) (r' : Ramp)
    (hok : clearAllOverrides K r S = Except.ok r') :
    clearAllOverrides K r S
      = generateRamp K r.name r.params S ChromaCurve.natural false ∧
    r'.name = r.name ∧ r'.params = r.params ∧
    (∀ s ∈ r'.stops, s.overridden = false ∧ s.overrides = none) := by
  refine ⟨rfl, ?_⟩
  unfold clearAllOverrides generateRamp at hok
  cases hp : parseColor K r.params.baseColor with
  | none => rw [hp] at hok; exact absurd hok (by simp)
  | some b =>
      rw [hp] at hok
      cases S with
      | nil => exact absurd hok (by simp)
      | cons s0 rest =>
          simp only [Except.ok.injEq] at hok
          subst hok
          refine ⟨rfl, rfl, ?_⟩
          intro s hs
          exact buildRampStops_mem_flags K _ _ _ _ _ _ 0 (s0 :: rest) s hs

/-- Witness for C8: clearing all overrides of the demo ramp. -/
theorem C8_clearAllOverrides_regenerates_witness :
    clearAllOverrides demoK wRamp TAILWIND_STOPS
      = generateRamp demoK wRamp.name wRamp.params TAILWIND_STOPS
          ChromaCurve.natural false ∧
    c8Ramp.name = wRamp.name ∧ c8Ramp.params = wRamp.params ∧
    (∀ s ∈ c8Ramp.stops, s.overridden = false ∧ s.overrides = none) :=
  C8_clearAllOverrides_regenerates demoK wRamp TAILWIND_STOPS c8Ramp
    (by with_unfolding_all rfl)

lemma RefShape_isReferenceNotFound (e : ResolveError) (ramps : List Ramp)
    (h : RefShape e ramps) : e.isReferenceNotFound = true := by
  rcases h with ⟨n, rfl, _, _⟩ | ⟨sid, n, rp, rfl, _, _, _⟩ <;> rfl

lemma resolveSource_spec (K : ColorKernel) (ramps : List Ramp)
    (src : TokenSource) (hs : sourceLitOk K src = true) :
    ((∃ e, resolveSource K src ramps = Except.error e)
        ↔ sourceRefMissing ramps src = true)
    ∧ ∀ e, resolveSource K src ramps = Except.error e → RefShape e ramps := by
  cases src with
  | literal v =>
      simp only [sourceLitOk] at hs
      cases hp : K.parse v with
      | none => rw [hp] at hs; exact absurd hs (by simp)
      | some o => simp [resolveSource, toColor, hp, sourceRefMissing]
  | ramp n sid =>
      cases hfind : ramps.find? (fun r => r.name == n) with
      | none =>
          constructor
          · simp [resolveSource, sourceRefMissing, hfind]
          · intro e he
            simp only [resolveSource, hfind, Except.error.injEq] at he
            subst he
            exact Or.inl ⟨n, rfl, hfind, rfl⟩
      | some rp =>
          cases hstop : rp.stops.find? (fun s => s.id == sid) with
          | none =>
              constructor
              · simp [resolveSource, sourceRefMissing, hfind, hstop]
              · intro e he
                simp only [resolveSource, hfind, hstop, Except.error.injEq] at he
                subst he
                exact Or.inr ⟨sid, n, rp, rfl, hfind, hstop, rfl⟩
          | some st =>
              constructor
              · simp [resolveSource, sourceRefMissing, hfind, hstop]
              · intro e he
                simp only [resolveSource, hfind, hstop] at he
                exact absurd he (by simp)

lemma resolveToken_spec (K : ColorKernel) (ramps : List Ramp)
    (t : TokenDefinition) (ht : tokenLitOk K t = true) :
    ((∃ e, resolveToken K ramps t = Except.error e)
        ↔ tokenRefMissing ramps t = true)
    ∧ ∀ e, resolveToken K ramps t = Except.error e → RefShape e ramps := by
  have hpair : sourceLitOk K t.light = true ∧ sourceLitOk K t.dark = true := by
    simpa [tokenLitOk] using ht
  have Hl := resolveSource_spec K ramps t.light hpair.1
  have Hd := resolveSource_spec K ramps t.dark hpair.2
  cases hL : resolveSource K t.light ramps with
  | error e =>
      have hml : sourceRefMissing ramps t.light = true := Hl.1.mp ⟨e, hL⟩
      have hrt : resolveToken K ramps t = Except.error e := by
        simp only [resolveToken, hL]
      constructor
      · rw [hrt]
        constructor
        · intro _
          simp [tokenRefMissing, hml]
        · intro _
          exact ⟨e, rfl⟩
      · intro e' he'
        rw [hrt] at he'
        injection he' with h
        subst h
        exact Hl.2 e hL
  | ok lv =>
      have hml : sourceRefMissing ramps t.light = false := by
        cases hx : sourceRefMissing ramps t.light with
        | false => rfl
        | true =>
            obtain ⟨e, he⟩ := Hl.1.mpr hx
            rw [hL] at he
            exact absurd he (by simp)
      cases hD : resolveSource K t.dark ramps with
      | error e =>
          have hmd : sourceRefMissing ramps t.dark = true := Hd.1.mp ⟨e, hD⟩
          have hrt : resolveToken K ramps t = Except.error e := by
            simp only [resolveToken, hL, hD]
          constructor
          · rw [hrt]
            constructor
            · intro _
              simp [tokenRefMissing, hmd]
            · intro _
              exact ⟨e, rfl⟩
          · intro e' he'
            rw [hrt] at he'
            injection he' with h
            subst h
            exact Hd.2 e hD
      | ok dv =>
          have hmd : sourceRefMissing ramps t.dark = false := by
            cases hx : sourceRefMissing ramps t.dark with
            | false => rfl
            | true =>
                obtain ⟨e, he⟩ := Hd.1.mpr hx
                rw [hD] at he
                exact absurd he (by simp)
          constructor
          · constructor
            · rintro ⟨e, he⟩
              simp [resolveToken, hL, hD] at he
            · intro hx
              simp [tokenRefMissing, hml, hmd] at hx
          · intro e he
            simp [resolveToken, hL, hD] at he

/-- Claim C7 (amended): provided every literal source among the tokens is a
parseable color, `resolveTokens` fails exactly when some token's ramp-kind
source names a ramp absent from the supplied ramps or a stop id absent from
the found ramp; every such failure is a `ReferenceNotFound` error whose
message is the exact template naming the missing identifier and enumerating
the available alternatives (all ramp names, or the found ramp's stop ids);
and on failure no result list is produced (on success the full list is). -/
theorem C7_resolveTokens_referenceNotFound (K : ColorKernel)
    (tokens : List TokenDefinition) (ramps : List Ramp)
    (hlit : ∀ t ∈ tokens, tokenLitOk K t = true) :
    ((∃ e, resolveTokens K tokens ramps = Except.error e)
        ↔ ∃ t ∈ tokens, tokenRefMissing ramps t = true)
    ∧ (∀ e, resolveTokens K tokens ramps = Except.error e →
        e.isReferenceNotFound = true ∧ RefShape e ramps)
    ∧ (∀ res, resolveTokens K tokens ramps = Except.ok res →
        res.length = tokens.length) := by
  revert hlit
  induction tokens with
  | nil =>
      intro _
      refine ⟨by simp [resolveTokens], ?_, ?_⟩
      · intro e he
        exact absurd he (by simp [resolveTokens])
      · intro res hres
        simp only [resolveTokens, Except.ok.injEq] at hres
        subst hres
        rfl
  | cons t rest ih =>
      intro hlit
      have ht := hlit t (List.mem_cons_self t rest)
      have IH := ih (fun t' h => hlit t' (List.mem_cons_of_mem t h))
      have Ht := resolveToken_spec K ramps t ht
      cases hT : resolveToken K ramps t with
      | error e =>
          have hm : tokenRefMissing ramps t = true := Ht.1.mp ⟨e, hT⟩
          have hrt : resolveTokens K (t :: rest) ramps = Except.error e := by
            simp only [resolveTokens, hT]
          refine ⟨?_, ?_, ?_⟩
          · rw [hrt]
            constructor
            · intro _
              exact ⟨t, List.mem_cons_self t rest, hm⟩
            · intro _
              exact ⟨e, rfl⟩
          · intro e' he'
            rw [hrt] at he'
            injection he' with h
            subst h
            exact ⟨RefShape_isReferenceNotFound e ramps (Ht.2 e hT), Ht.2 e hT⟩
          · intro res hres
            rw [hrt] at hres
            exact absurd hres (by simp)
      | ok rt =>
          have hm : tokenRefMissing ramps t = false := by
            cases hx : tokenRefMissing ramps t with
            | false => rfl
            | true =>
                obtain ⟨e, he⟩ := Ht.1.mpr hx
                rw [hT] at he
                exact absurd he (by simp)
          cases hR : resolveTokens K rest ramps with
          | error e =>
              have hrt : resolveTokens K (t :: rest) ramps = Except.error e := by
                simp only [resolveTokens, hT, hR]
              refine ⟨?_, ?_, ?_⟩
              · rw [hrt]
                constructor
                · intro _
                  obtain ⟨t', ht', hmt⟩ := IH.1.mp ⟨e, hR⟩
                  exact ⟨t', List.mem_cons_of_mem t ht', hmt⟩
                · intro _
                  exact ⟨e, rfl⟩
              · intro e' he'
                rw [hrt] at he'
                injection he' with h
                subst h
                exact IH.2.1 e hR
              · intro res hres
                rw [hrt] at hres
                exact absurd hres (by simp)
          | ok rts =>
              have hrt : resolveTokens K (t :: rest) ramps
                  = Except.ok (rt :: rts) := by
                simp only [resolveTokens, hT, hR]
              refine ⟨?_, ?_, ?_⟩
              · rw [hrt]
                constructor
                · rintro ⟨e, he⟩
                  exact absurd he (by simp)
                · rintro ⟨t', ht', hmt⟩
                  rcases List.mem_cons.mp ht' with h | h
                  · subst h
                    rw [hm] at hmt
                    exact absurd hmt (by simp)
                  · obtain ⟨e, he⟩ := IH.1.mpr ⟨t', h, hmt⟩
                    rw [hR] at he
                    exact absurd he (by simp)
              · intro e' he'
                rw [hrt] at he'
                exact absurd he' (by simp)
              · intro res hres
                rw [hrt] at hres
                injection hres with h
                subst h
                simp [IH.2.2 rts hR]

/-- Witness for the amended C7: a token referencing nonexistent stop 999 of
ramp "blue", with a valid literal companion source. -/
theorem C7_resolveTokens_referenceNotFound_witness :
    ((∃ e, resolveTokens demoK c7GoodTokens c7Ramps = Except.error e)
        ↔ ∃ t ∈ c7GoodTokens, tokenRefMissing c7Ramps t = true)
    ∧ (∀ e, resolveTokens demoK c7GoodTokens c7Ramps = Except.error e →
        e.isReferenceNotFound = true ∧ RefShape e c7Ramps)
    ∧ (∀ res, resolveTokens demoK c7GoodTokens c7Ramps = Except.ok res →
        res.length = c7GoodTokens.length) :=
  C7_resolveTokens_referenceNotFound demoK c7GoodTokens c7Ramps
    (of_decide_eq_true (by with_unfolding_all rfl))

/-- Counterexample to C7 as stated: with one token whose light source is the
unparseable literal "not-a-color" and whose dark source references the
nonexistent stop 999 of ramp "blue", the failure condition of the claim
holds (a ramp-kind source names a missing stop), yet `resolveTokens` fails
with `InvalidColor`, not `ReferenceNotFound` — the light source is resolved
first and its failure wins. -/
theorem C7_resolveTokens_mixed_failure_counterexample :
    (∃ t ∈ c7BadTokens, tokenRefMissing c7Ramps t = true)
    ∧ resolveTokens demoK c7BadTokens c7Ramps
        = Except.error (ResolveError.invalidColor "not-a-color")
    ∧ ¬ ∃ e, resolveTokens demoK c7BadTokens c7Ramps = Except.error e ∧
        e.isReferenceNotFound = true := by
  have h2 : resolveTokens demoK c7BadTokens c7Ramps
      = Except.error (ResolveError.invalidColor "not-a-color") := by
    with_unfolding_all rfl
  refine ⟨of_decide_eq_true (by with_unfolding_all rfl), h2, ?_⟩
  rintro ⟨e, he, hre⟩
  rw [h2] at he
  injection he with h
  subst h
  exact absurd hre (by simp [ResolveError.isReferenceNotFound])

set_option maxRecDepth 8000 in
/-- Claim C1: `computeBaseStopHex` is NOT idempotent.  The kernel `c1K`
models a lossless hex round-trip with no gamut clamping needed (the most
favorable setting for idempotence): parsing `#c32615` yields OKLCH
(0.53, 0.2, 30), the closest stop is 600 (index 6, natural scale 0.96), so
the first call multiplies chroma by 0.96 and the second call multiplies it
by 0.96 again (0.96² ≠ 0.96), producing a different hex. -/
theorem C1_computeBaseStopHex_not_idempotent :
    computeBaseStopHex c1K "#c32615" TAILWIND_STOPS ChromaCurve.natural
      = some (encodeOklch ⟨53/100, 24/125, 30⟩)
    ∧ computeBaseStopHex c1K (encodeOklch ⟨53/100, 24/125, 30⟩)
        TAILWIND_STOPS ChromaCurve.natural
      = some (encodeOklch ⟨53/100, 576/3125, 30⟩)
    ∧ encodeOklch ⟨53/100, 576/3125, 30⟩ ≠ encodeOklch ⟨53/100, 24/125, 30⟩ := by
  refine ⟨?_, ?_, ?_⟩
  · with_unfolding_all rfl
  · with_unfolding_all rfl
  · exact of_decide_eq_true (by with_unfolding_all rfl)

end Huelab
